import Mathlib

/-!
Shallow embedding of the stablecoin-exchange payment saga.

Source layout embedded here:
- `src/db/paymentsRepo.ts`, `src/db/fundingRepo.ts`, `src/db/mintingRepo.ts`,
  the offramp repository, the fees repository and `src/db/fxRepo.ts` become pure
  functions over an explicit `DB` value (SQL inserts append a row; SQL
  `UPDATE ... RETURNING *` updates matching rows and errors when no row
  matched, modelled with `Except`).
- `src/activities.ts` becomes functions over `St` (database plus a counter
  supplying the fresh identifiers that `nanoid()` draws).
- `PaymentWorkflow` (workflows file) becomes a function from the FX table, an
  optional cancellation-signal delivery, the workflow input and a start state
  to `Except String (String × St)`: the returned outcome string and final state.

Numeric amounts are embedded as exact rationals (the spec and the SQL schema
speak in decimal amounts); `Number((x).toFixed(2))` becomes `round2`.

Cancellation model: Temporal delivers a signal when the workflow is suspended
at an `await`; the handler sets the in-memory `cancelRequested` flag, which
the workflow reads exactly once, at the checkpoint between the funding result
and the start of minting.  The awaits of `PaymentWorkflow`, in execution
order, are numbered 0 (`createPaymentActivity`), 1 (`updatePaymentStatus` to
IN_PROGRESS), 2 (`startChild` funding), 3 (`fundingChild.result()`),
4 (`startChild` mint), 5 (`mintChild.result()`), 6 (`startChild` offramp),
7 (`offrampChild.result()`), 8 (final status update).  A signal delivered at
await `i` has set the flag by the checkpoint exactly when `i ≤ 3 =
checkpointCut`.
-/

namespace StablecoinExchange

/-- `PaymentStatus` from `src/db/paymentsRepo.ts`. -/
inductive PaymentStatus where
  | CREATED
  | IN_PROGRESS
  | COMPLETED
  | FAILED
deriving DecidableEq, Repr

/-- `FundingStatus` from `src/db/fundingRepo.ts`. -/
inductive FundingStatus where
  | COMPLETED
  | FAILED
  | COMPENSATED
deriving DecidableEq, Repr

/-- The `"COMPLETED" | "FAILED"` status used by minting/offramp rows and by
every activity result in `src/activities.ts`. -/
inductive LegStatus where
  | COMPLETED
  | FAILED
deriving DecidableEq, Repr

/-- The `leg` tag of a fee row (`'FUNDING' | 'MINTING' | 'OFFRAMP'`). -/
inductive Leg where
  | FUNDING
  | MINTING
  | OFFRAMP
deriving DecidableEq, Repr

/-- A row of the `payments` table. -/
structure PaymentRow where
  id : String
  usd_amount : ℚ
  destination_currency : String
  status : PaymentStatus
deriving DecidableEq, Repr

/-- A row of the `funding` table. -/
structure FundingRow where
  id : ℕ
  payment_id : String
  usd_amount : ℚ
  status : FundingStatus
deriving DecidableEq, Repr

/-- A row of the `minting` table. -/
structure MintingRow where
  id : ℕ
  payment_id : String
  usd_amount : ℚ
  usdc_amount : ℚ
  usdc_rate : ℚ
  status : LegStatus
deriving DecidableEq, Repr

/-- A row of the `offramp` table. -/
structure OfframpRow where
  id : ℕ
  payment_id : String
  usdc_amount : ℚ
  local_amount : ℚ
  fx_rate : ℚ
  recipient : String
  status : LegStatus
deriving DecidableEq, Repr

/-- A row of the `fees` table. -/
structure FeeRow where
  id : ℕ
  payment_id : String
  leg : Leg
  amount : ℚ
  currency : String
deriving DecidableEq, Repr

/-- The persistence store, plus two append-only ghost logs used solely to
state properties: `fundingCreates` snapshots every funding row at insertion
time (its status at the time the fee decision was taken), and `statusWrites`
records every value ever written to `payments.status`, in order. -/
structure DB where
  payments : List PaymentRow
  funding : List FundingRow
  minting : List MintingRow
  offramp : List OfframpRow
  fees : List FeeRow
  fundingCreates : List FundingRow
  statusWrites : List (String × PaymentStatus)
deriving DecidableEq, Repr

/-- The empty store. -/
def DB.init : DB := ⟨[], [], [], [], [], [], []⟩

/-- `createPayment` from `src/db/paymentsRepo.ts`: INSERT of a payments row. -/
def createPayment (db : DB) (id : String) (usdAmount : ℚ)
    (destinationCurrency : String) (status : PaymentStatus) : DB :=
  { db with
      payments := db.payments ++ [⟨id, usdAmount, destinationCurrency, status⟩],
      statusWrites := db.statusWrites ++ [(id, status)] }

/-- `updatePaymentStatus` from `src/db/paymentsRepo.ts`: UPDATE by id,
throwing `Payment <id> not found` when no row matched. -/
def updatePaymentStatus (db : DB) (id : String) (status : PaymentStatus) :
    Except String DB :=
  if db.payments.any (fun p => p.id == id) then
    .ok { db with
            payments := db.payments.map
              (fun p => if p.id = id then { p with status := status } else p),
            statusWrites := db.statusWrites ++ [(id, status)] }
  else
    .error ("Payment " ++ id ++ " not found")

/-- `createFundingRecord` from `src/db/fundingRepo.ts` (also feeds the ghost
creation log). -/
def createFundingRecord (db : DB) (row : FundingRow) : DB :=
  { db with
      funding := db.funding ++ [row],
      fundingCreates := db.fundingCreates ++ [row] }

/-- `updateFundingStatus` from `src/db/fundingRepo.ts`: UPDATE by id,
throwing `Funding record <id> not found` when no row matched.  Note: the SQL
filters on the id only, not on the current status. -/
def updateFundingStatus (db : DB) (id : ℕ) (status : FundingStatus) :
    Except String DB :=
  if db.funding.any (fun f => f.id == id) then
    .ok { db with
            funding := db.funding.map
              (fun f => if f.id = id then { f with status := status } else f) }
  else
    .error ("Funding record " ++ toString id ++ " not found")

/-- `createMintingRecord` from `src/db/mintingRepo.ts`. -/
def createMintingRecord (db : DB) (row : MintingRow) : DB :=
  { db with minting := db.minting ++ [row] }

/-- `createOfframpRecord` from the offramp repository. -/
def createOfframpRecord (db : DB) (row : OfframpRow) : DB :=
  { db with offramp := db.offramp ++ [row] }

/-- `createFeeRecord` from the fees repository. -/
def createFeeRecord (db : DB) (row : FeeRow) : DB :=
  { db with fees := db.fees ++ [row] }

/-- The `fx_rates` table: rows keyed by (base_currency, quote_currency). -/
def FxTable : Type := List ((String × String) × ℚ)

/-- `getFxRate` from `src/db/fxRepo.ts`. -/
def getFxRate (table : FxTable) (base quote : String) : Option ℚ :=
  (table.find? (fun e => e.1.1 == base && e.1.2 == quote)).map (fun e => e.2)

/-- Activity-level state: the store plus the supply of fresh identifiers
drawn by `nanoid()`. -/
structure St where
  db : DB
  nextId : ℕ
deriving DecidableEq, Repr

/-- The all-empty start state of one workflow run. -/
def St.init : St := ⟨DB.init, 0⟩

/-- `nanoid()`: draw a fresh identifier. -/
def nanoid (s : St) : ℕ × St :=
  (s.nextId, { s with nextId := s.nextId + 1 })

/-- `s.includes(sub)` on the underlying character list. -/
def listHasInfix (sub : List Char) : List Char → Bool
  | [] => sub.isEmpty
  | c :: cs => sub.isPrefixOf (c :: cs) || listHasInfix sub cs

/-- JavaScript `String.prototype.includes`. -/
def strIncludes (s sub : String) : Bool :=
  listHasInfix sub.data s.data

/-- JavaScript `Number((x).toFixed(2))` on an exact decimal: round to two
decimal places, half away from zero on the nonnegative amounts used here. -/
def round2 (x : ℚ) : ℚ := ((⌊x * 100 + 1 / 2⌋ : ℤ) : ℚ) / 100

/-- Result shape of `createFundingActivity`. -/
structure FundingResult where
  status : LegStatus
  fundingId : ℕ
deriving DecidableEq, Repr

/-- Result shape of `mintUsdcActivity`. -/
structure MintingResult where
  status : LegStatus
  usdcAmount : ℚ
  usdcRate : ℚ
deriving DecidableEq, Repr

/-- Result shape of `offrampActivity`. -/
structure OfframpResult where
  status : LegStatus
  localAmount : ℚ
  fxRate : ℚ
deriving DecidableEq, Repr

/-- `createFundingActivity` from `src/activities.ts`: fresh funding id,
insert a COMPLETED funding row, then insert a $0.30 FUNDING fee row in USD. -/
def createFundingActivity (s : St) (paymentId : String) (amountUsd : ℚ)
    (destinationCurrency : String) : FundingResult × St :=
  let (fundingId, s) := nanoid s
  let status := LegStatus.COMPLETED
  let s := { s with
               db := createFundingRecord s.db
                 ⟨fundingId, paymentId, amountUsd, FundingStatus.COMPLETED⟩ }
  let (feeId, s) := nanoid s
  let s := { s with
               db := createFeeRecord s.db
                 ⟨feeId, paymentId, Leg.FUNDING, (0.30 : ℚ), "USD"⟩ }
  (⟨status, fundingId⟩, s)

/-- `compensateFundingActivity` from `src/activities.ts`. -/
def compensateFundingActivity (s : St) (fundingId : ℕ) : Except String St := do
  let db ← updateFundingStatus s.db fundingId FundingStatus.COMPENSATED
  return { s with db := db }

/-- `mintUsdcActivity` from `src/activities.ts`: fails exactly when the
payment id contains `fail-mint`; converts at rate 1; records the minting row
always, and a $0.05 MINTING fee row only on success. -/
def mintUsdcActivity (s : St) (paymentId : String) (amountUsd : ℚ)
    (destinationCurrency : String) : MintingResult × St :=
  let willFail := strIncludes paymentId "fail-mint"
  let usdcRate : ℚ := 1
  let usdcAmount := if willFail then 0 else amountUsd * usdcRate
  let status := if willFail then LegStatus.FAILED else LegStatus.COMPLETED
  let (mintingId, s) := nanoid s
  let s := { s with
               db := createMintingRecord s.db
                 ⟨mintingId, paymentId, amountUsd, usdcAmount, usdcRate, status⟩ }
  let s :=
    if status = LegStatus.COMPLETED then
      let (feeId, s) := nanoid s
      { s with
          db := createFeeRecord s.db
            ⟨feeId, paymentId, Leg.MINTING, (0.05 : ℚ), "USD"⟩ }
    else s
  (⟨status, usdcAmount, usdcRate⟩, s)

/-- `offrampActivity` from `src/activities.ts`: look up the USD → destination
rate; on a missing rate record a FAILED row with zero amount/rate and charge
no fee; otherwise record the COMPLETED row and charge 0.5% of the local
amount, rounded to cents, in the destination currency. -/
def offrampActivity (fxTable : FxTable) (s : St) (paymentId : String)
    (usdcAmount : ℚ) (destinationCurrency : String) : OfframpResult × St :=
  match getFxRate fxTable "USD" destinationCurrency with
  | none =>
      let (offrampId, s) := nanoid s
      let s := { s with
                   db := createOfframpRecord s.db
                     ⟨offrampId, paymentId, usdcAmount, 0, 0, "unknown",
                      LegStatus.FAILED⟩ }
      (⟨LegStatus.FAILED, 0, 0⟩, s)
  | some rate =>
      let fxRate := rate
      let localAmount := usdcAmount * fxRate
      let (offrampId, s) := nanoid s
      let s := { s with
                   db := createOfframpRecord s.db
                     ⟨offrampId, paymentId, usdcAmount, localAmount, fxRate,
                      "demo-recipient", LegStatus.COMPLETED⟩ }
      let (feeId, s) := nanoid s
      let feeAmount := round2 (localAmount * (0.005 : ℚ))
      let s := { s with
                   db := createFeeRecord s.db
                     ⟨feeId, paymentId, Leg.OFFRAMP, feeAmount,
                      destinationCurrency⟩ }
      (⟨LegStatus.COMPLETED, localAmount, fxRate⟩, s)

/-- `createPaymentActivity` from `src/activities.ts`. -/
def createPaymentActivity (s : St) (id : String) (usdAmount : ℚ)
    (destinationCurrency : String) (status : PaymentStatus) : St :=
  { s with db := createPayment s.db id usdAmount destinationCurrency status }

/-- `updatePaymentStatusActivity` from `src/activities.ts`. -/
def updatePaymentStatusActivity (s : St) (id : String)
    (status : PaymentStatus) : Except String St := do
  let db ← updatePaymentStatus s.db id status
  return { s with db := db }

/-- The input record of `PaymentWorkflow`. -/
structure WorkflowInput where
  paymentId : String
  amountUsd : ℚ
  destinationCurrency : String
deriving DecidableEq, Repr

/-- One delivery of the `cancelPayment` signal: the index of the await at
which the workflow processes it, and the optional free-text reason. -/
structure CancelSignal where
  deliveryPoint : ℕ
  reason : Option String
deriving DecidableEq, Repr

/-- Index of the last await that precedes the cancellation checkpoint
(`fundingChild.result()`); see the header comment. -/
def checkpointCut : ℕ := 3

/-- Whether the in-memory `cancelRequested` flag is already set when the
checkpoint between funding and minting reads it. -/
def cancelSeenAtCheckpoint (cancel : Option CancelSignal) : Bool :=
  match cancel with
  | none => false
  | some c => decide (c.deliveryPoint ≤ checkpointCut)

/-- The `` (reason: ...)`` suffix of the cancellation outcome string. -/
def cancelExtra (reason : Option String) : String :=
  match reason with
  | some r => " (reason: " ++ r ++ ")"
  | none => ""

/-- `PaymentWorkflow`: the saga orchestrator.  Drives payment creation,
funding, the cancellation checkpoint, minting, offramp, compensation on a
failed later leg, and the final status write, returning the outcome string
and the final state. -/
def PaymentWorkflow (fxTable : FxTable) (cancel : Option CancelSignal)
    (input : WorkflowInput) (s0 : St) : Except String (String × St) := do
  let cancelRequested := cancelSeenAtCheckpoint cancel
  let cancelReason := cancel.bind (fun c => c.reason)
  let s := createPaymentActivity s0 input.paymentId input.amountUsd
    input.destinationCurrency PaymentStatus.CREATED
  let s ← updatePaymentStatusActivity s input.paymentId
    PaymentStatus.IN_PROGRESS
  let (fundingResult, s) := createFundingActivity s input.paymentId
    input.amountUsd input.destinationCurrency
  if fundingResult.status = LegStatus.FAILED then
    let s ← updatePaymentStatusActivity s input.paymentId PaymentStatus.FAILED
    return ("Payment " ++ input.paymentId ++
      " FAILED during funding child workflow", s)
  else if cancelRequested then
    let s ← updatePaymentStatusActivity s input.paymentId PaymentStatus.FAILED
    return ("Payment " ++ input.paymentId ++ " CANCELLED after funding" ++
      cancelExtra cancelReason, s)
  else
    let (mintingResult, s) := mintUsdcActivity s input.paymentId
      input.amountUsd input.destinationCurrency
    if mintingResult.status = LegStatus.FAILED then
      let s ← compensateFundingActivity s fundingResult.fundingId
      let s ← updatePaymentStatusActivity s input.paymentId
        PaymentStatus.FAILED
      return ("Payment " ++ input.paymentId ++
        " FAILED during minting; funding COMPENSATED", s)
    else
      let (offrampResult, s) := offrampActivity fxTable s input.paymentId
        mintingResult.usdcAmount input.destinationCurrency
      if offrampResult.status = LegStatus.FAILED then
        let s ← compensateFundingActivity s fundingResult.fundingId
        let s ← updatePaymentStatusActivity s input.paymentId
          PaymentStatus.FAILED
        return ("Payment " ++ input.paymentId ++
          " FAILED during offramp; funding COMPENSATED", s)
      else
        let s ← updatePaymentStatusActivity s input.paymentId
          PaymentStatus.COMPLETED
        return ("Payment " ++ input.paymentId ++ " COMPLETED: " ++
          toString input.amountUsd ++ " USD -> " ++
          toString mintingResult.usdcAmount ++ " USDC @ " ++
          toString mintingResult.usdcRate ++ ", then " ++
          toString offrampResult.localAmount ++ " " ++
          input.destinationCurrency ++ " @ " ++ toString offrampResult.fxRate,
          s)

/-- A full run of the orchestrator from a fresh store. -/
def runPayment (fxTable : FxTable) (cancel : Option CancelSignal)
    (input : WorkflowInput) : Except String (String × St) :=
  PaymentWorkflow fxTable cancel input St.init

/-- The status column of the payment row with the given id, if any. -/
def paymentStatusOf (db : DB) (id : String) : Option PaymentStatus :=
  (db.payments.find? (fun p => p.id == id)).map (fun p => p.status)

/-- Number of fee rows carrying a given leg tag. -/
def feeCountFor (db : DB) (l : Leg) : ℕ :=
  (db.fees.filter (fun f => decide (f.leg = l))).length

/-- Whether leg `l`'s record had status COMPLETED at the time the fee
decision was taken: for funding this is the creation-time snapshot (the row
may later move to COMPENSATED); minting and offramp rows are immutable. -/
def legChargedCompleted (db : DB) (l : Leg) : Bool :=
  match l with
  | Leg.FUNDING =>
      db.fundingCreates.any (fun f => decide (f.status = FundingStatus.COMPLETED))
  | Leg.MINTING =>
      db.minting.any (fun m => decide (m.status = LegStatus.COMPLETED))
  | Leg.OFFRAMP =>
      db.offramp.any (fun o => decide (o.status = LegStatus.COMPLETED))

/-- Final state of a run whose cancellation flag was set at the checkpoint:
payment FAILED, funding left COMPLETED with its fee, no minting, no offramp. -/
def cancelledSt (input : WorkflowInput) : St :=
  ⟨⟨[⟨input.paymentId, input.amountUsd, input.destinationCurrency,
      PaymentStatus.FAILED⟩],
    [⟨0, input.paymentId, input.amountUsd, FundingStatus.COMPLETED⟩],
    [], [],
    [⟨1, input.paymentId, Leg.FUNDING, (0.30 : ℚ), "USD"⟩],
    [⟨0, input.paymentId, input.amountUsd, FundingStatus.COMPLETED⟩],
    [(input.paymentId, PaymentStatus.CREATED),
     (input.paymentId, PaymentStatus.IN_PROGRESS),
     (input.paymentId, PaymentStatus.FAILED)]⟩, 2⟩

/-- Final state of a run whose minting leg failed (`fail-mint` marker):
payment FAILED, funding COMPENSATED, FAILED minting row with zero converted
amount, only the funding fee. -/
def mintFailedSt (input : WorkflowInput) : St :=
  ⟨⟨[⟨input.paymentId, input.amountUsd, input.destinationCurrency,
      PaymentStatus.FAILED⟩],
    [⟨0, input.paymentId, input.amountUsd, FundingStatus.COMPENSATED⟩],
    [⟨2, input.paymentId, input.amountUsd, 0, 1, LegStatus.FAILED⟩],
    [],
    [⟨1, input.paymentId, Leg.FUNDING, (0.30 : ℚ), "USD"⟩],
    [⟨0, input.paymentId, input.amountUsd, FundingStatus.COMPLETED⟩],
    [(input.paymentId, PaymentStatus.CREATED),
     (input.paymentId, PaymentStatus.IN_PROGRESS),
     (input.paymentId, PaymentStatus.FAILED)]⟩, 3⟩

/-- Final state of a run whose destination currency has no FX rate:
payment FAILED, funding COMPENSATED, COMPLETED minting row, FAILED offramp
row with zero amount and rate, funding and minting fees only. -/
def offrampFailedSt (input : WorkflowInput) : St :=
  ⟨⟨[⟨input.paymentId, input.amountUsd, input.destinationCurrency,
      PaymentStatus.FAILED⟩],
    [⟨0, input.paymentId, input.amountUsd, FundingStatus.COMPENSATED⟩],
    [⟨2, input.paymentId, input.amountUsd, input.amountUsd, 1,
      LegStatus.COMPLETED⟩],
    [⟨4, input.paymentId, input.amountUsd, 0, 0, "unknown", LegStatus.FAILED⟩],
    [⟨1, input.paymentId, Leg.FUNDING, (0.30 : ℚ), "USD"⟩,
     ⟨3, input.paymentId, Leg.MINTING, (0.05 : ℚ), "USD"⟩],
    [⟨0, input.paymentId, input.amountUsd, FundingStatus.COMPLETED⟩],
    [(input.paymentId, PaymentStatus.CREATED),
     (input.paymentId, PaymentStatus.IN_PROGRESS),
     (input.paymentId, PaymentStatus.FAILED)]⟩, 5⟩

/-- Final state of a fully successful run at FX rate `rate`: payment
COMPLETED, all three leg rows COMPLETED, three fee rows. -/
def completedSt (input : WorkflowInput) (rate : ℚ) : St :=
  ⟨⟨[⟨input.paymentId, input.amountUsd, input.destinationCurrency,
      PaymentStatus.COMPLETED⟩],
    [⟨0, input.paymentId, input.amountUsd, FundingStatus.COMPLETED⟩],
    [⟨2, input.paymentId, input.amountUsd, input.amountUsd, 1,
      LegStatus.COMPLETED⟩],
    [⟨4, input.paymentId, input.amountUsd, input.amountUsd * rate, rate,
      "demo-recipient", LegStatus.COMPLETED⟩],
    [⟨1, input.paymentId, Leg.FUNDING, (0.30 : ℚ), "USD"⟩,
     ⟨3, input.paymentId, Leg.MINTING, (0.05 : ℚ), "USD"⟩,
     ⟨5, input.paymentId, Leg.OFFRAMP,
      round2 (input.amountUsd * rate * (0.005 : ℚ)),
      input.destinationCurrency⟩],
    [⟨0, input.paymentId, input.amountUsd, FundingStatus.COMPLETED⟩],
    [(input.paymentId, PaymentStatus.CREATED),
     (input.paymentId, PaymentStatus.IN_PROGRESS),
     (input.paymentId, PaymentStatus.COMPLETED)]⟩, 6⟩

/-- A rate table holding the spec's example rate: USD → MXN at 18.344. -/
def demoFx : FxTable := [(("USD", "MXN"), (18.344 : ℚ))]

/-- The spec's example request: 100 units to MXN. -/
def demoInput : WorkflowInput := ⟨"p-100", (100 : ℚ), "MXN"⟩

/-- Two consecutive deliveries of the same funding-leg invocation (same
payment identifier and parameters), as the durable scheduler may produce. -/
def fundingTwice (paymentId : String) (amountUsd : ℚ)
    (destinationCurrency : String) : St :=
  let (_, s1) := createFundingActivity St.init paymentId amountUsd
    destinationCurrency
  let (_, s2) := createFundingActivity s1 paymentId amountUsd
    destinationCurrency
  s2

/-- A store whose only funding row is in status FAILED (never COMPLETED). -/
def failedFundingSt : St :=
  ⟨⟨[], [⟨0, "p-100", 100, FundingStatus.FAILED⟩], [], [], [],
    [⟨0, "p-100", 100, FundingStatus.FAILED⟩], []⟩, 1⟩

/-- A store whose only funding row is in status COMPLETED. -/
def completedFundingSt : St :=
  ⟨⟨[], [⟨0, "p-100", 100, FundingStatus.COMPLETED⟩], [], [], [],
    [⟨0, "p-100", 100, FundingStatus.COMPLETED⟩], []⟩, 1⟩

lemma ok_bind {α β : Type} (a : α) (f : α → Except String β) :
    (Except.ok a >>= f) = f a := rfl

lemma error_bind {α β : Type} (e : String) (f : α → Except String β) :
    ((Except.error e : Except String α) >>= f) = Except.error e := rfl

lemma runPayment_cancelled (fx : FxTable) (cancel : Option CancelSignal)
    (input : WorkflowInput) (h : cancelSeenAtCheckpoint cancel = true) :
    runPayment fx cancel input =
      Except.ok ("Payment " ++ input.paymentId ++ " CANCELLED after funding" ++
        cancelExtra (cancel.bind (fun c => c.reason)), cancelledSt input) := by
  simp [runPayment, PaymentWorkflow, h, createPaymentActivity, createPayment,
    updatePaymentStatusActivity, updatePaymentStatus, createFundingActivity,
    nanoid, createFundingRecord, createFeeRecord, St.init, DB.init,
    cancelledSt, ok_bind]

lemma runPayment_mintFailed (fx : FxTable) (cancel : Option CancelSignal)
    (input : WorkflowInput) (hc : cancelSeenAtCheckpoint cancel = false)
    (hm : strIncludes input.paymentId "fail-mint" = true) :
    runPayment fx cancel input =
      Except.ok ("Payment " ++ input.paymentId ++
        " FAILED during minting; funding COMPENSATED", mintFailedSt input) := by
  simp [runPayment, PaymentWorkflow, hc, hm, createPaymentActivity,
    createPayment, updatePaymentStatusActivity, updatePaymentStatus,
    createFundingActivity, mintUsdcActivity, compensateFundingActivity,
    updateFundingStatus, createMintingRecord, nanoid, createFundingRecord,
    createFeeRecord, St.init, DB.init, mintFailedSt, ok_bind]

lemma runPayment_missingRate (fx : FxTable) (cancel : Option CancelSignal)
    (input : WorkflowInput) (hc : cancelSeenAtCheckpoint cancel = false)
    (hm : strIncludes input.paymentId "fail-mint" = false)
    (hr : getFxRate fx "USD" input.destinationCurrency = none) :
    runPayment fx cancel input =
      Except.ok ("Payment " ++ input.paymentId ++
        " FAILED during offramp; funding COMPENSATED",
        offrampFailedSt input) := by
  simp [runPayment, PaymentWorkflow, hc, hm, hr, createPaymentActivity,
    createPayment, updatePaymentStatusActivity, updatePaymentStatus,
    createFundingActivity, mintUsdcActivity, offrampActivity,
    compensateFundingActivity, updateFundingStatus, createMintingRecord,
    createOfframpRecord, nanoid, createFundingRecord, createFeeRecord,
    St.init, DB.init, offrampFailedSt, ok_bind]

lemma runPayment_completed (fx : FxTable) (cancel : Option CancelSignal)
    (input : WorkflowInput) (rate : ℚ)
    (hc : cancelSeenAtCheckpoint cancel = false)
    (hm : strIncludes input.paymentId "fail-mint" = false)
    (hr : getFxRate fx "USD" input.destinationCurrency = some rate) :
    runPayment fx cancel input =
      Except.ok ("Payment " ++ input.paymentId ++ " COMPLETED: " ++
        toString input.amountUsd ++ " USD -> " ++ toString input.amountUsd ++
        " USDC @ " ++ toString (1 : ℚ) ++ ", then " ++
        toString (input.amountUsd * rate) ++ " " ++
        input.destinationCurrency ++ " @ " ++ toString rate,
        completedSt input rate) := by
  simp [runPayment, PaymentWorkflow, hc, hm, hr, createPaymentActivity,
    createPayment, updatePaymentStatusActivity, updatePaymentStatus,
    createFundingActivity, mintUsdcActivity, offrampActivity,
    compensateFundingActivity, updateFundingStatus, createMintingRecord,
    createOfframpRecord, nanoid, createFundingRecord, createFeeRecord,
    St.init, DB.init, completedSt, ok_bind]

lemma runPayment_cancel_irrelevant (fx : FxTable) (cancel : Option CancelSignal)
    (input : WorkflowInput) (hc : cancelSeenAtCheckpoint cancel = false) :
    runPayment fx cancel input = runPayment fx none input := by
  cases hm : strIncludes input.paymentId "fail-mint" with
  | true =>
      rw [runPayment_mintFailed fx cancel input hc hm,
        runPayment_mintFailed fx none input rfl hm]
  | false =>
      cases hr : getFxRate fx "USD" input.destinationCurrency with
      | none =>
          rw [runPayment_missingRate fx cancel input hc hm hr,
            runPayment_missingRate fx none input rfl hm hr]
      | some rate =>
          rw [runPayment_completed fx cancel input rate hc hm hr,
            runPayment_completed fx none input rate rfl hm hr]

/-- C1: whenever the payment identifier carries the simulated-failure marker
`fail-mint` (and the cancellation flag is not set at the checkpoint), the
minting leg fails, the orchestrator compensates the funding leg returned by
the funding executor, sets the payment status to FAILED and terminates with
the "failed during minting; funding compensated" outcome; the failed minting
row records a zero converted amount and no MINTING fee row is written. -/
theorem mint_failure_compensates_funding (fx : FxTable)
    (cancel : Option CancelSignal) (input : WorkflowInput)
    (hm : strIncludes input.paymentId "fail-mint" = true)
    (hc : cancelSeenAtCheckpoint cancel = false) :
    ∃ s : St,
      runPayment fx cancel input =
        Except.ok ("Payment " ++ input.paymentId ++
          " FAILED during minting; funding COMPENSATED", s) ∧
      s.db.minting =
        [⟨2, input.paymentId, input.amountUsd, 0, 1, LegStatus.FAILED⟩] ∧
      s.db.funding =
        [⟨0, input.paymentId, input.amountUsd, FundingStatus.COMPENSATED⟩] ∧
      paymentStatusOf s.db input.paymentId = some PaymentStatus.FAILED ∧
      feeCountFor s.db Leg.MINTING = 0 ∧
      s.db.offramp = [] := by
  refine ⟨mintFailedSt input, runPayment_mintFailed fx cancel input hc hm,
    ?_, ?_, ?_, ?_, ?_⟩ <;>
    simp [mintFailedSt, paymentStatusOf, feeCountFor]

/-- Witness for C1 at the concrete input `pay-fail-mint-1`, 100 USD → MXN. -/
theorem mint_failure_compensates_funding_witness :
    ∃ s : St,
      runPayment [] none ⟨"pay-fail-mint-1", (100 : ℚ), "MXN"⟩ =
        Except.ok ("Payment " ++ "pay-fail-mint-1" ++
          " FAILED during minting; funding COMPENSATED", s) ∧
      s.db.minting =
        [⟨2, "pay-fail-mint-1", (100 : ℚ), 0, 1, LegStatus.FAILED⟩] ∧
      s.db.funding =
        [⟨0, "pay-fail-mint-1", (100 : ℚ), FundingStatus.COMPENSATED⟩] ∧
      paymentStatusOf s.db "pay-fail-mint-1" = some PaymentStatus.FAILED ∧
      feeCountFor s.db Leg.MINTING = 0 ∧
      s.db.offramp = [] :=
  mint_failure_compensates_funding [] none
    ⟨"pay-fail-mint-1", (100 : ℚ), "MXN"⟩ (by decide) (by decide)

/-- C2: when the destination currency has no entry in the rate table (no
cancellation, no failure marker), the offramp executor records exactly one
FAILED offramp row with zero destination amount and zero rate, charges no
OFFRAMP fee  and the saga compensates the funding leg, leaves the minting
row COMPLETED and sets the payment status to FAILED. -/
theorem missing_rate_offramp_failure (fx : FxTable)
    (cancel : Option CancelSignal) (input : WorkflowInput)
    (hr : getFxRate fx "USD" input.destinationCurrency = none)
    (hm : strIncludes input.paymentId "fail-mint" = false)
    (hc : cancelSeenAtCheckpoint cancel = false) :
    ∃ s : St,
      runPayment fx cancel input =
        Except.ok ("Payment " ++ input.paymentId ++
          " FAILED during offramp; funding COMPENSATED", s) ∧
      s.db.offramp =
        [⟨4, input.paymentId, input.amountUsd, 0, 0, "unknown",
          LegStatus.FAILED⟩] ∧
      feeCountFor s.db Leg.OFFRAMP = 0 ∧
      s.db.funding =
        [⟨0, input.paymentId, input.amountUsd, FundingStatus.COMPENSATED⟩] ∧
      s.db.minting =
        [⟨2, input.paymentId, input.amountUsd, input.amountUsd, 1,
          LegStatus.COMPLETED⟩] ∧
      paymentStatusOf s.db input.paymentId = some PaymentStatus.FAILED := by
  refine ⟨offrampFailedSt input,
    runPayment_missingRate fx cancel input hc hm hr, ?_, ?_, ?_, ?_, ?_⟩ <;>
    simp [offrampFailedSt, paymentStatusOf, feeCountFor]

/-- Witness for C2 at the concrete input `p-100`, 100 USD → ABX with an
empty rate table. -/
theorem missing_rate_offramp_failure_witness :
    ∃ s : St,
      runPayment [] none ⟨"p-100", (100 : ℚ), "ABX"⟩ =
        Except.ok ("Payment " ++ "p-100" ++
          " FAILED during offramp; funding COMPENSATED", s) ∧
      s.db.offramp =
        [⟨4, "p-100", (100 : ℚ), 0, 0, "unknown", LegStatus.FAILED⟩] ∧
      feeCountFor s.db Leg.OFFRAMP = 0 ∧
      s.db.funding = [⟨0, "p-100", (100 : ℚ), FundingStatus.COMPENSATED⟩] ∧
      s.db.minting =
        [⟨2, "p-100", (100 : ℚ), (100 : ℚ), 1, LegStatus.COMPLETED⟩] ∧
      paymentStatusOf s.db "p-100" = some PaymentStatus.FAILED :=
  missing_rate_offramp_failure [] none ⟨"p-100", (100 : ℚ), "ABX"⟩
    (by decide) (by decide) (by decide)

/-- C5: the happy path at the spec's example numbers — 100 units to a
currency quoted at 18.344 yields one COMPLETED funding row, one COMPLETED
minting row (100 converted at rate 1), one COMPLETED offramp row (1834.40
at 18.344), exactly three fee rows tagged FUNDING, MINTING and OFFRAMP with
the OFFRAMP fee equal to 0.5% of the destination amount rounded to cents
and denominated in the destination currency, and a COMPLETED payment. -/
theorem happy_path_run :
    Except.map Prod.snd (runPayment demoFx none demoInput) =
      Except.ok (⟨⟨[⟨"p-100", (100 : ℚ), "MXN", PaymentStatus.COMPLETED⟩],
        [⟨0, "p-100", (100 : ℚ), FundingStatus.COMPLETED⟩],
        [⟨2, "p-100", (100 : ℚ), (100 : ℚ), 1, LegStatus.COMPLETED⟩],
        [⟨4, "p-100", (100 : ℚ), (1834.40 : ℚ), (18.344 : ℚ),
          "demo-recipient", LegStatus.COMPLETED⟩],
        [⟨1, "p-100", Leg.FUNDING, (0.30 : ℚ), "USD"⟩,
         ⟨3, "p-100", Leg.MINTING, (0.05 : ℚ), "USD"⟩,
         ⟨5, "p-100", Leg.OFFRAMP, (9.17 : ℚ), "MXN"⟩],
        [⟨0, "p-100", (100 : ℚ), FundingStatus.COMPLETED⟩],
        [("p-100", PaymentStatus.CREATED),
         ("p-100", PaymentStatus.IN_PROGRESS),
         ("p-100", PaymentStatus.COMPLETED)]⟩, 6⟩ : St) ∧
    (9.17 : ℚ) = round2 ((1834.40 : ℚ) * (0.005 : ℚ)) := by
  constructor
  · rw [runPayment_completed demoFx none demoInput (18.344 : ℚ) rfl
      (by decide) rfl]
    norm_num [completedSt, demoInput, round2, Except.map]
  · norm_num [round2]

/-- C3: cancellation takes effect only at the single checkpoint between
funding success and the start of minting.  If the flag is set by then
(delivery at one of the awaits up to the funding result), the payment status
becomes FAILED and the run terminates with the "cancelled after funding"
outcome carrying the caller-supplied reason; a signal first observed at any
later await leaves the whole run — legs executed, rows written, terminal
status and outcome — identical to a run with no cancellation at all. -/
theorem cancellation_only_at_checkpoint (fx : FxTable) (input : WorkflowInput)
    (c : CancelSignal) :
    (c.deliveryPoint ≤ checkpointCut →
      ∃ s : St, runPayment fx (some c) input =
        Except.ok ("Payment " ++ input.paymentId ++
          " CANCELLED after funding" ++ cancelExtra c.reason, s) ∧
        paymentStatusOf s.db input.paymentId = some PaymentStatus.FAILED) ∧
    (checkpointCut < c.deliveryPoint →
      runPayment fx (some c) input = runPayment fx none input) := by
  constructor
  · intro h
    have hc : cancelSeenAtCheckpoint (some c) = true := by
      simp [cancelSeenAtCheckpoint, h]
    refine ⟨cancelledSt input, ?_, ?_⟩
    · rw [runPayment_cancelled fx (some c) input hc]
      rfl
    · simp [cancelledSt, paymentStatusOf]
  · intro h
    have hc : cancelSeenAtCheckpoint (some c) = false := by
      simp [cancelSeenAtCheckpoint]
      omega
    exact runPayment_cancel_irrelevant fx (some c) input hc

/-- Witness for C3: delivery at await 0 cancels with the reason attached;
delivery at await 7 leaves the run identical to an uncancelled one. -/
theorem cancellation_only_at_checkpoint_witness :
    (∃ s : St, runPayment [] (some ⟨0, some "userStop"⟩)
        ⟨"p-100", (100 : ℚ), "MXN"⟩ =
      Except.ok ("Payment " ++ "p-100" ++ " CANCELLED after funding" ++
        cancelExtra (some "userStop"), s) ∧
      paymentStatusOf s.db "p-100" = some PaymentStatus.FAILED) ∧
    runPayment [] (some ⟨7, none⟩) ⟨"p-100", (100 : ℚ), "MXN"⟩ =
      runPayment [] none ⟨"p-100", (100 : ℚ), "MXN"⟩ :=
  ⟨(cancellation_only_at_checkpoint [] ⟨"p-100", (100 : ℚ), "MXN"⟩
      ⟨0, some "userStop"⟩).1 (by decide),
   (cancellation_only_at_checkpoint [] ⟨"p-100", (100 : ℚ), "MXN"⟩
      ⟨7, none⟩).2 (by decide)⟩

/-- Counterexample to C4 as stated: a cancellation signal delivered after
the checkpoint but before the minting leg completes (at the minting-start
await, index 4) is ignored — the payment ends COMPLETED, not FAILED, and an
offramp row is written. -/
theorem cancel_during_minting_ignored :
    Except.map Prod.snd
        (runPayment demoFx (some ⟨4, some "stop"⟩) demoInput) =
      Except.ok (completedSt demoInput (18.344 : ℚ)) ∧
    paymentStatusOf (completedSt demoInput (18.344 : ℚ)).db "p-100" =
      some PaymentStatus.COMPLETED ∧
    (completedSt demoInput (18.344 : ℚ)).db.offramp ≠ [] := by
  refine ⟨?_, by simp [completedSt, demoInput, paymentStatusOf],
    by simp [completedSt, demoInput]⟩
  rw [runPayment_completed demoFx (some ⟨4, some "stop"⟩) demoInput
    (18.344 : ℚ) (by decide) (by decide) rfl]
  simp [Except.map]

/-- C4 as amended: delivering a cancellation signal at any point up to the
post-funding checkpoint (i.e. before the minting leg starts) yields payment
status FAILED, exactly one funding row left in status COMPLETED (not
COMPENSATED), and no offramp row. -/
theorem cancel_before_checkpoint_fails_payment (fx : FxTable)
    (input : WorkflowInput) (c : CancelSignal)
    (h : c.deliveryPoint ≤ checkpointCut) :
    ∃ s : St, runPayment fx (some c) input =
      Except.ok ("Payment " ++ input.paymentId ++ " CANCELLED after funding" ++
        cancelExtra c.reason, s) ∧
      paymentStatusOf s.db input.paymentId = some PaymentStatus.FAILED ∧
      s.db.funding =
        [⟨0, input.paymentId, input.amountUsd, FundingStatus.COMPLETED⟩] ∧
      s.db.offramp = [] := by
  have hc : cancelSeenAtCheckpoint (some c) = true := by
    simp [cancelSeenAtCheckpoint, h]
  refine ⟨cancelledSt input, ?_, ?_, rfl, rfl⟩
  · rw [runPayment_cancelled fx (some c) input hc]
    rfl
  · simp [cancelledSt, paymentStatusOf]

/-- Witness for amended C4 at delivery point 2 on the demo input. -/
theorem cancel_before_checkpoint_fails_payment_witness :
    ∃ s : St, runPayment demoFx (some ⟨2, none⟩) demoInput =
      Except.ok ("Payment " ++ demoInput.paymentId ++
        " CANCELLED after funding" ++ cancelExtra none, s) ∧
      paymentStatusOf s.db demoInput.paymentId = some PaymentStatus.FAILED ∧
      s.db.funding =
        [⟨0, demoInput.paymentId, demoInput.amountUsd,
          FundingStatus.COMPLETED⟩] ∧
      s.db.offramp = [] :=
  cancel_before_checkpoint_fails_payment demoFx demoInput ⟨2, none⟩ (by decide)

/-- C6: in every run, for every leg, exactly one fee row carries that leg's
tag when the leg's record had status COMPLETED at the time of charging, and
none otherwise; a funding row that later becomes COMPENSATED keeps its
original fee row (fees are never reversed). -/
theorem fee_iff_leg_completed (fx : FxTable) (cancel : Option CancelSignal)
    (input : WorkflowInput) :
    ∃ out s, runPayment fx cancel input = Except.ok (out, s) ∧
      (∀ l : Leg, feeCountFor s.db l =
        (if legChargedCompleted s.db l then 1 else 0)) ∧
      (∀ f ∈ s.db.funding, f.status = FundingStatus.COMPENSATED →
        feeCountFor s.db Leg.FUNDING = 1) := by
  cases hcf : cancelSeenAtCheckpoint cancel with
  | true =>
      refine ⟨_, _, runPayment_cancelled fx cancel input hcf, ?_, ?_⟩
      · intro l
        cases l <;> simp [feeCountFor, legChargedCompleted, cancelledSt]
      · intro f hf hst
        simp [feeCountFor, cancelledSt]
  | false =>
      cases hm : strIncludes input.paymentId "fail-mint" with
      | true =>
          refine ⟨_, _, runPayment_mintFailed fx cancel input hcf hm, ?_, ?_⟩
          · intro l
            cases l <;> simp [feeCountFor, legChargedCompleted, mintFailedSt]
          · intro f hf hst
            simp [feeCountFor, mintFailedSt]
      | false =>
          cases hr : getFxRate fx "USD" input.destinationCurrency with
          | none =>
              refine ⟨_, _, runPayment_missingRate fx cancel input hcf hm hr,
                ?_, ?_⟩
              · intro l
                cases l <;>
                  simp [feeCountFor, legChargedCompleted, offrampFailedSt]
              · intro f hf hst
                simp [feeCountFor, offrampFailedSt]
          | some rate =>
              refine ⟨_, _, runPayment_completed fx cancel input rate hcf hm hr,
                ?_, ?_⟩
              · intro l
                cases l <;>
                  simp [feeCountFor, legChargedCompleted, completedSt]
              · intro f hf hst
                simp [feeCountFor, completedSt]

/-- C7: in every orchestrator run the sequence of values written to the
payment status column is exactly CREATED, IN_PROGRESS, then one terminal
value (COMPLETED or FAILED) — it only moves forward and nothing is written
after a terminal value. -/
theorem payment_status_forward_only (fx : FxTable)
    (cancel : Option CancelSignal) (input : WorkflowInput) :
    ∃ out s, runPayment fx cancel input = Except.ok (out, s) ∧
      (s.db.statusWrites =
        [(input.paymentId, PaymentStatus.CREATED),
         (input.paymentId, PaymentStatus.IN_PROGRESS),
         (input.paymentId, PaymentStatus.COMPLETED)] ∨
       s.db.statusWrites =
        [(input.paymentId, PaymentStatus.CREATED),
         (input.paymentId, PaymentStatus.IN_PROGRESS),
         (input.paymentId, PaymentStatus.FAILED)]) := by
  cases hcf : cancelSeenAtCheckpoint cancel with
  | true => exact ⟨_, _, runPayment_cancelled fx cancel input hcf, Or.inr rfl⟩
  | false =>
      cases hm : strIncludes input.paymentId "fail-mint" with
      | true =>
          exact ⟨_, _, runPayment_mintFailed fx cancel input hcf hm,
            Or.inr rfl⟩
      | false =>
          cases hr : getFxRate fx "USD" input.destinationCurrency with
          | none =>
              exact ⟨_, _, runPayment_missingRate fx cancel input hcf hm hr,
                Or.inr rfl⟩
          | some rate =>
              exact ⟨_, _, runPayment_completed fx cancel input rate hcf hm hr,
                Or.inl rfl⟩

/-- C8 is violated by the code: redelivering the funding-leg invocation for
the same payment identifier draws a fresh random identifier and inserts a
second funding row and a second FUNDING fee row. -/
theorem funding_redelivery_duplicates_rows :
    (fundingTwice "p-100" (100 : ℚ) "MXN").db.funding =
      [⟨0, "p-100", (100 : ℚ), FundingStatus.COMPLETED⟩,
       ⟨2, "p-100", (100 : ℚ), FundingStatus.COMPLETED⟩] ∧
    feeCountFor (fundingTwice "p-100" (100 : ℚ) "MXN").db Leg.FUNDING = 2 := by
  constructor <;> rfl

/-- Counterexample to C9 as stated: compensating a funding leg whose record
is in status FAILED (not COMPLETED) does not raise — the update succeeds
silently and moves the row to COMPENSATED, because the SQL filters on the
id only. -/
theorem compensate_failed_funding_not_rejected :
    compensateFundingActivity failedFundingSt 0 =
      Except.ok (⟨⟨[], [⟨0, "p-100", (100 : ℚ), FundingStatus.COMPENSATED⟩],
        [], [], [], [⟨0, "p-100", (100 : ℚ), FundingStatus.FAILED⟩], []⟩,
        1⟩ : St) := by
  rfl

/-- C9 as amended: compensation raises a surfaced error whenever the
referenced funding leg identifier does not exist, and a payment status
update for an unknown payment identifier likewise raises (in both cases no
updated store is produced); when the referenced funding leg exists with
status COMPLETED, compensation transitions it to COMPENSATED and touches no
other table. -/
theorem compensation_invariant_errors (s : St) (fid : ℕ) (db : DB)
    (pid : String) (st : PaymentStatus) :
    (s.db.funding.all (fun f => !(f.id == fid)) = true →
      compensateFundingActivity s fid =
        Except.error ("Funding record " ++ toString fid ++ " not found")) ∧
    (db.payments.all (fun p => !(p.id == pid)) = true →
      updatePaymentStatus db pid st =
        Except.error ("Payment " ++ pid ++ " not found")) ∧
    (∀ f ∈ s.db.funding, f.id = fid → f.status = FundingStatus.COMPLETED →
      ∃ s' : St, compensateFundingActivity s fid = Except.ok s' ∧
        { f with status := FundingStatus.COMPENSATED } ∈ s'.db.funding ∧
        s'.db.payments = s.db.payments ∧ s'.db.fees = s.db.fees ∧
        s'.db.minting = s.db.minting ∧ s'.db.offramp = s.db.offramp ∧
        s'.db.statusWrites = s.db.statusWrites) := by
  refine ⟨?_, ?_, ?_⟩
  · intro h
    have hany : s.db.funding.any (fun f => f.id == fid) = false := by
      simp only [List.any_eq_false]
      intro f hf
      have := List.all_eq_true.mp h f hf
      simpa using this
    simp [compensateFundingActivity, updateFundingStatus, hany, error_bind]
  · intro h
    have hany : db.payments.any (fun p => p.id == pid) = false := by
      simp only [List.any_eq_false]
      intro p hp
      have := List.all_eq_true.mp h p hp
      simpa using this
    simp [updatePaymentStatus, hany]
  · intro f hf hid hst
    have hany : s.db.funding.any (fun g => g.id == fid) = true := by
      rw [List.any_eq_true]
      exact ⟨f, hf, by simp [hid]⟩
    refine ⟨{ s with db := { s.db with
        funding := s.db.funding.map (fun g =>
          if g.id = fid then { g with status := FundingStatus.COMPENSATED }
          else g) } }, ?_, ?_, rfl, rfl, rfl, rfl, rfl⟩
    · simp [compensateFundingActivity, updateFundingStatus, hany, ok_bind]
    · have himg : { f with status := FundingStatus.COMPENSATED } =
          (fun g => if g.id = fid then
            { g with status := FundingStatus.COMPENSATED } else g) f := by
        simp [hid]
      rw [himg]
      exact List.mem_map_of_mem _ hf

/-- Witness for amended C9: compensation on an empty store errors, a status
update for an unknown payment errors, and compensation on a COMPLETED
funding row succeeds into COMPENSATED. -/
theorem compensation_invariant_errors_witness :
    (compensateFundingActivity St.init 0 =
      Except.error ("Funding record " ++ toString 0 ++ " not found")) ∧
    (updatePaymentStatus DB.init "nope" PaymentStatus.FAILED =
      Except.error ("Payment " ++ "nope" ++ " not found")) ∧
    (∃ s' : St, compensateFundingActivity completedFundingSt 0 =
      Except.ok s' ∧
      (⟨0, "p-100", (100 : ℚ), FundingStatus.COMPENSATED⟩ : FundingRow) ∈
        s'.db.funding ∧
      s'.db.payments = completedFundingSt.db.payments ∧
      s'.db.fees = completedFundingSt.db.fees ∧
      s'.db.minting = completedFundingSt.db.minting ∧
      s'.db.offramp = completedFundingSt.db.offramp ∧
      s'.db.statusWrites = completedFundingSt.db.statusWrites) :=
  ⟨(compensation_invariant_errors St.init 0 DB.init "nope"
      PaymentStatus.FAILED).1 (by decide),
   (compensation_invariant_errors St.init 0 DB.init "nope"
      PaymentStatus.FAILED).2.1 (by decide),
   (compensation_invariant_errors completedFundingSt 0 DB.init "nope"
      PaymentStatus.FAILED).2.2
     ⟨0, "p-100", (100 : ℚ), FundingStatus.COMPLETED⟩
     (List.mem_singleton.mpr rfl) rfl rfl⟩

/-- C10: two executions differing only in the free-text cancellation reason
produce identical persisted state (payment row, leg rows, fee rows, every
status write); when the delivery misses the checkpoint the full results,
outcome string included, coincide — so the reason can only influence the
outcome string of the cancelled-after-funding path. -/
theorem cancel_reason_no_persistent_effect (fx : FxTable)
    (input : WorkflowInput) (p : ℕ) (r1 r2 : Option String) :
    Except.map Prod.snd (runPayment fx (some ⟨p, r1⟩) input) =
      Except.map Prod.snd (runPayment fx (some ⟨p, r2⟩) input) ∧
    (checkpointCut < p →
      runPayment fx (some ⟨p, r1⟩) input =
        runPayment fx (some ⟨p, r2⟩) input) := by
  by_cases hp : p ≤ checkpointCut
  · have h1 : cancelSeenAtCheckpoint (some ⟨p, r1⟩) = true := by
      simp [cancelSeenAtCheckpoint, hp]
    have h2 : cancelSeenAtCheckpoint (some ⟨p, r2⟩) = true := by
      simp [cancelSeenAtCheckpoint, hp]
    constructor
    · rw [runPayment_cancelled fx (some ⟨p, r1⟩) input h1,
        runPayment_cancelled fx (some ⟨p, r2⟩) input h2]
      simp [Except.map]
    · intro h
      exact absurd hp (Nat.not_le.mpr h)
  · have h1 : cancelSeenAtCheckpoint (some ⟨p, r1⟩) = false := by
      simp [cancelSeenAtCheckpoint]
      omega
    have h2 : cancelSeenAtCheckpoint (some ⟨p, r2⟩) = false := by
      simp [cancelSeenAtCheckpoint]
      omega
    rw [runPayment_cancel_irrelevant fx (some ⟨p, r1⟩) input h1,
      runPayment_cancel_irrelevant fx (some ⟨p, r2⟩) input h2]
    exact ⟨rfl, fun _ => rfl⟩

/-- Witness for C10 at delivery point 5, comparing a run with a reason
against a run without one. -/
theorem cancel_reason_no_persistent_effect_witness :
    Except.map Prod.snd
        (runPayment demoFx (some ⟨5, some "changed my mind"⟩) demoInput) =
      Except.map Prod.snd (runPayment demoFx (some ⟨5, none⟩) demoInput) ∧
    runPayment demoFx (some ⟨5, some "changed my mind"⟩) demoInput =
      runPayment demoFx (some ⟨5, none⟩) demoInput :=
  ⟨(cancel_reason_no_persistent_effect demoFx demoInput 5
      (some "changed my mind") none).1,
   (cancel_reason_no_persistent_effect demoFx demoInput 5
      (some "changed my mind") none).2 (by decide)⟩

end StablecoinExchange
